import Mathlib

/-!
Verification of the component loader, theme system, photo carousel and
interactions wiring of the digital-resume site.

The JavaScript sources are embedded shallowly: the DOM is a map from element
id to the element's current innerHTML, `fetch` outcomes are an environment
mapping each path to its result for this page load, and each JS function
becomes a Lean function on an explicit state record. Console logging,
CSS/visual updates and analytics calls are elided: they touch none of the
state the specification's claims observe.
-/

namespace Resume

/-- Outcome of `fetch(path)` for one path during this page load: an ok
response with its body text, a non-ok HTTP response (`response.ok` false),
or a network-level rejection. -/
inductive FetchOutcome where
  | ok (body : String)
  | httpError (status : Nat) (statusText : String)
  | networkError (msg : String)
deriving DecidableEq, Repr

/-- The fetch environment of one page load: what fetching each path yields. -/
def Env : Type := String → FetchOutcome

/-- The DOM as the loader observes it: element id ↦ that element's innerHTML
(`none` when `document.getElementById` returns null). -/
def Dom : Type := String → Option String

/-- `element.innerHTML = html` on the element with the given id (every call
site first checks the element exists). -/
def setInnerHTML (d : Dom) (elemId : String) (html : String) : Dom :=
  fun j => if j = elemId then some html else d j

/-- One entry of `window.App.components` (the `container` field is recoverable
from the DOM map and the id, so it is not duplicated here). -/
structure ComponentEntry where
  loaded : Bool
  error : Option String
deriving DecidableEq, Repr

/-- `window.App.components.set name entry` (a JS `Map` keyed by name). -/
def mapSet (m : String → Option ComponentEntry) (k : String) (v : ComponentEntry) :
    String → Option ComponentEntry :=
  fun j => if j = k then some v else m j

/-- The mutable state the component loader touches: the DOM, the
`window.App.components` map, the readiness flag `window.App.isLoaded`, and a
log of every path passed to `fetch` (to reason about how many fetches the
loader issues). -/
structure St where
  dom : Dom
  components : String → Option ComponentEntry
  fetchLog : List String
  isLoaded : Bool

/-- `COMPONENT_PATHS` from js/components.js, as an ordered list of
(name, path) pairs (JS object iteration order). -/
def COMPONENT_PATHS : List (String × String) :=
  [("header", "components/header.html"),
   ("hero", "components/hero.html"),
   ("about", "components/about.html"),
   ("skills", "components/skills.html"),
   ("experience", "components/experience.html"),
   ("projects", "components/projects.html"),
   ("hobbies", "components/hobbies.html"),
   ("contact", "components/contact.html")]
/-- Hard-coded inline fallback HTML for the `header` fragment (from loadFallbackComponent). -/
def fallback_header : String :=
  "
      <header class=\"header\" role=\"banner\">
        <nav class=\"nav\" role=\"navigation\">
          <a href=\"#\" class=\"logo\">
            <div class=\"logo-icon\">AJ</div>
            <span class=\"logo-text\">Alex Johnson</span>
          </a>
          <ul class=\"nav-links\">
            <li><a href=\"#about\" class=\"nav-link\">About</a></li>
            <li><a href=\"#skills\" class=\"nav-link\">Skills</a></li>
            <li><a href=\"#experience\" class=\"nav-link\">Experience</a></li>
            <li><a href=\"#projects\" class=\"nav-link\">Projects</a></li>
            <li><a href=\"#contact\" class=\"nav-link\">Contact</a></li>
          </ul>
          <button class=\"theme-switcher\" type=\"button\" aria-label=\"Toggle dark mode\">
            <svg class=\"sun-icon\" width=\"20\" height=\"20\" viewBox=\"0 0 20 20\" fill=\"currentColor\">
              <circle cx=\"10\" cy=\"10\" r=\"4\" stroke=\"currentColor\" stroke-width=\"1.5\" fill=\"none\" />
              <path d=\"M10 1v2M10 17v2M19 10h-2M3 10H1M16.07 3.93l-1.41 1.41M5.34 14.66l-1.41 1.41M16.07 16.07l-1.41-1.41M5.34 5.34L3.93 3.93\" />
            </svg>
            <svg class=\"moon-icon\" width=\"20\" height=\"20\" viewBox=\"0 0 20 20\" fill=\"currentColor\" style=\"display: none;\">
              <path d=\"M17.293 13.293A8 8 0 016.707 2.707a8.001 8.001 0 1010.586 10.586z\" />
            </svg>
          </button>
          <button class=\"mobile-menu-toggle\" type=\"button\" aria-expanded=\"false\">
            <span class=\"hamburger-line\"></span>
            <span class=\"hamburger-line\"></span>
            <span class=\"hamburger-line\"></span>
          </button>
        </nav>
        <div class=\"scroll-progress\">
          <div class=\"scroll-progress-bar\"></div>
        </div>
      </header>
    "

/-- Hard-coded inline fallback HTML for the `hero` fragment (from loadFallbackComponent). -/
def fallback_hero : String :=
  "
      <section class=\"hero\" id=\"hero\" data-section=\"hero\">
        <div class=\"hero-content\">
          <h1 class=\"hero-name\">
            <span class=\"hero-greeting\">Hi, I'm</span>
            <span class=\"hero-name-text\">Alex Johnson</span>
          </h1>
          <p class=\"hero-title\">Marketing Operations Lead</p>
          <p class=\"hero-subtitle\">
            Passionate about driving growth through data-driven marketing strategies, automation, and cross-functional collaboration.
          </p>
          <div class=\"hero-actions\">
            <a href=\"#about\" class=\"hero-cta primary\">Learn More About Me</a>
            <a href=\"#contact\" class=\"hero-cta secondary\">Get In Touch</a>
          </div>
        </div>
      </section>
    "

/-- Hard-coded inline fallback HTML for the `about` fragment (from loadFallbackComponent). -/
def fallback_about : String :=
  "
      <section class=\"section about-section\" id=\"about\" data-section=\"about\">
        <div class=\"container\">
          <div class=\"section-header\">
            <h2 class=\"section-title\">About Me</h2>
            <p class=\"section-subtitle\">Passionate marketing operations professional with a drive for growth and innovation</p>
          </div>
          <div class=\"about-grid\">
            <div class=\"about-text\">
              <p><strong>Hi there! I'm Alex Johnson</strong>, a results-driven Marketing Operations Lead with over 5 years of experience transforming marketing strategies through data-driven insights, automation, and cross-functional collaboration.</p>
              <p>I specialize in building scalable marketing systems that drive measurable growth. When I'm not optimizing conversion funnels, you'll find me exploring new marketing technologies or collaborating with sales and product teams.</p>
            </div>
          </div>
        </div>
      </section>
    "

/-- Hard-coded inline fallback HTML for the `skills` fragment (from loadFallbackComponent). -/
def fallback_skills : String :=
  "
      <section class=\"section skills-section\" id=\"skills\" data-section=\"skills\">
        <div class=\"container\">
          <div class=\"section-header\">
            <h2 class=\"section-title\">Skills & Expertise</h2>
            <p class=\"section-subtitle\">A comprehensive toolkit built through years of hands-on experience</p>
          </div>
          <div class=\"skills-grid\">
            <div class=\"skill-category\">
              <div class=\"skill-icon\">⚙️</div>
              <h3 class=\"skill-category-title\">Technical Skills</h3>
              <p class=\"skill-category-description\">Modern marketing technology stack and data analysis tools</p>
            </div>
          </div>
        </div>
      </section>
    "

/-- Hard-coded inline fallback HTML for the `experience` fragment (from loadFallbackComponent). -/
def fallback_experience : String :=
  "
      <section class=\"section experience-section\" id=\"experience\" data-section=\"experience\">
        <div class=\"container\">
          <div class=\"section-header\">
            <h2 class=\"section-title\">Professional Experience</h2>
            <p class=\"section-subtitle\">My journey in marketing operations and growth strategy</p>
          </div>
          <div class=\"experience-timeline\">
            <div class=\"timeline-line\"></div>
            <div class=\"experience-item\">
              <div class=\"timeline-dot\"></div>
              <div class=\"company-header\">
                <h3 class=\"company-name\">Current Company</h3>
                <p class=\"job-title\">Marketing Operations Lead</p>
              </div>
            </div>
          </div>
        </div>
      </section>
    "

/-- Hard-coded inline fallback HTML for the `projects` fragment (from loadFallbackComponent). -/
def fallback_projects : String :=
  "
      <section class=\"section projects-section\" id=\"projects\" data-section=\"projects\">
        <div class=\"container\">
          <div class=\"section-header\">
            <h2 class=\"section-title\">Featured Projects</h2>
            <p class=\"section-subtitle\">Key initiatives that drove measurable business impact</p>
          </div>
          <div class=\"projects-grid\">
            <div class=\"project-card\">
              <div class=\"project-content\">
                <h3 class=\"project-title\">Marketing Automation Platform</h3>
                <p class=\"project-description\">Implemented comprehensive automation system that increased lead conversion by 40%.</p>
              </div>
            </div>
          </div>
        </div>
      </section>
    "

/-- Hard-coded inline fallback HTML for the `hobbies` fragment (from loadFallbackComponent). -/
def fallback_hobbies : String :=
  "
      <section class=\"section hobbies-section\" id=\"hobbies\" data-section=\"hobbies\">
        <div class=\"container\">
          <div class=\"section-header\">
            <h2 class=\"section-title\">Hobbies & Interests</h2>
            <p class=\"section-subtitle\">What I enjoy outside of work</p>
          </div>
          <div class=\"hobbies-grid\">
            <div class=\"hobby-item\">
              <div class=\"hobby-icon\">📸</div>
              <div class=\"hobby-name\">Photography</div>
            </div>
          </div>
        </div>
      </section>
    "

/-- Hard-coded inline fallback HTML for the `contact` fragment (from loadFallbackComponent). -/
def fallback_contact : String :=
  "
      <section class=\"section contact-section\" id=\"contact\" data-section=\"contact\">
        <div class=\"container\">
          <div class=\"section-header\">
            <h2 class=\"section-title\">Let's Connect</h2>
            <p class=\"section-subtitle\">Ready to discuss your next marketing operations challenge?</p>
          </div>
          <div class=\"contact-info\">
            <a href=\"mailto:alex@example.com\" class=\"contact-item\">
              <div class=\"contact-icon\">📧</div>
              <div class=\"contact-label\">Email</div>
              <div class=\"contact-value\">alex@example.com</div>
            </a>
          </div>
        </div>
      </section>
    "
/-- The hard-coded `fallbackContent` map of loadFallbackComponent:
component name ↦ inline fallback HTML (JS object property lookup,
`undefined` ↦ `none`). -/
def fallbackContent : String → Option String
  | "header" => some fallback_header
  | "hero" => some fallback_hero
  | "about" => some fallback_about
  | "skills" => some fallback_skills
  | "experience" => some fallback_experience
  | "projects" => some fallback_projects
  | "hobbies" => some fallback_hobbies
  | "contact" => some fallback_contact
  | _ => none

/-- The generic placeholder template used when `fallbackContent[name]` is
absent (or falsy): "Section Loading Error … Unable to load ⟨name⟩ section.
Please refresh the page." -/
def genericFallback (name : String) : String :=
  "
    <section class=\"section\">
      <div class=\"container\">
        <h2>Section Loading Error</h2>
        <p>Unable to load " ++ name ++ " section. Please refresh the page.</p>
      </div>
    </section>
  "

/-- JS `a || b` on an optional string: `undefined` and the empty string are
falsy, any other string is truthy. -/
def jsOrString : Option String → String → String
  | some s, d => if s = "" then d else s
  | none, d => d

/-- `loadFallbackComponent(name, containerId)`: if the container element is
missing, return; otherwise set its innerHTML to
`fallbackContent[name] || genericFallback` . -/
def loadFallbackComponent (name containerId : String) (st : St) : St :=
  match st.dom containerId with
  | none => st
  | some _ =>
      { st with
        dom := setInnerHTML st.dom containerId
          (jsOrString (fallbackContent name) (genericFallback name)) }

/-- The `try` block of `loadComponent(name, path, containerId)`: fetch the
path (recorded in the fetch log), throw on a non-ok response or network
error, throw if the container is missing, otherwise inject the body and
record the component as loaded. Errors are returned as `Except.error` with
the thrown message. -/
def loadComponentTry (env : Env) (name path containerId : String) (st : St) :
    St × Except String Bool :=
  let st1 : St := { st with fetchLog := st.fetchLog ++ [path] }
  match env path with
  | .httpError status statusText =>
      (st1, .error ("HTTP " ++ toString status ++ ": " ++ statusText))
  | .networkError msg => (st1, .error msg)
  | .ok html =>
      match st1.dom containerId with
      | none => (st1, .error ("Container " ++ containerId ++ " not found in DOM"))
      | some _ =>
          ({ st1 with
             dom := setInnerHTML st1.dom containerId html,
             components := mapSet st1.components name ⟨true, none⟩ },
           .ok true)

/-- `loadComponent(name, path, containerId)`: the try block, with the catch
handler that records the error in `window.App.components`, loads the
fallback content, and resolves `false`. The returned `Bool` is the value the
component's promise resolves with. -/
def loadComponent (env : Env) (name path containerId : String) (st : St) : St × Bool :=
  match loadComponentTry env name path containerId st with
  | (st1, .ok b) => (st1, b)
  | (st1, .error msg) =>
      let st2 : St :=
        { st1 with components := mapSet st1.components name ⟨false, some msg⟩ }
      (loadFallbackComponent name containerId st2, false)

/-- A settled promise outcome as `Promise.allSettled` reports it. -/
inductive POutcome where
  | fulfilled (value : Bool)
  | rejected (reason : String)
deriving DecidableEq, Repr

/-- The promise of one `loadComponent(...)` call: the async function's body
catches every error and returns normally, so the promise is fulfilled with
the returned boolean. -/
def loadComponentPromise (env : Env) (name path containerId : String) (st : St) :
    St × POutcome :=
  let r := loadComponent env name path containerId st
  (r.1, .fulfilled r.2)

/-- The mapped `loadPromises` of loadAllComponents, awaited by
`Promise.allSettled`: each (name, path) pair is loaded into container
`name ++ "-container"`, and the settled outcomes are collected in order. -/
def runComponents (env : Env) : List (String × String) → St → St × List POutcome
  | [], st => (st, [])
  | (name, path) :: rest, st =>
      let r1 := loadComponentPromise env name path (name ++ "-container") st
      let r2 := runComponents env rest r1.1
      (r2.1, r1.2 :: r2.2)

/-- The loading statistics loadAllComponents computes (`loadTime` elided:
wall-clock time is outside the model). -/
structure LoadStats where
  successCount : Nat
  totalComponents : Nat
deriving DecidableEq, Repr

/-- `result.status === 'fulfilled' && result.value === true`. -/
def isFulfilledTrue : POutcome → Bool
  | .fulfilled true => true
  | _ => false

/-- An outcome that is fulfilled with `false` (a component whose load
resolved `false`). -/
def isFulfilledFalse : POutcome → Bool
  | .fulfilled false => true
  | _ => false

/-- The body of `loadAllComponents()` over an arbitrary component list:
issue every load, await all settlements with `Promise.allSettled`, and
report how many results were fulfilled with `true` out of how many results
there were. -/
def loadAllComponentsOver (env : Env) (l : List (String × String)) (st : St) :
    St × LoadStats :=
  let r := runComponents env l st
  (r.1, ⟨(r.2.filter isFulfilledTrue).length, r.2.length⟩)

/-- `loadAllComponents()`: the loader run over the configured
`COMPONENT_PATHS`. -/
def loadAllComponents (env : Env) (st : St) : St × LoadStats :=
  loadAllComponentsOver env COMPONENT_PATHS st

/-- The `DOMContentLoaded` handler of js/components.js, projected to the
state the claims observe: it awaits `loadAllComponents()` and only afterwards
sets `window.App.isLoaded = true`. (Loading-screen display, mobile
detection, preference loading and UI initialization touch no field of this
state.) -/
def domContentLoadedHandler (env : Env) (st : St) : St :=
  let r := loadAllComponents env st
  { r.1 with isLoaded := true }

/-- The `CarouselState` object of js/hobbies-carousel.js, projected to the
fields the claims observe (`photos`, touch coordinates and the `initialized`
flag are elided). Indices are modelled as integers since JS arithmetic can
drive them below zero. `autoPlayInterval` holds the id returned by
`setInterval`, or `none` for JS `null`. -/
structure CarouselState where
  currentIndex : Int
  totalPhotos : Int
  isPlaying : Bool
  autoPlayInterval : Option Nat
deriving DecidableEq, Repr

/-- `navigateToPhoto(index)`: wrap an out-of-range index (negative ↦ last
photo, at-or-past the end ↦ first photo) and store it as the current index.
The display/indicator/info updates read but never write these fields. -/
def navigateToPhoto (index : Int) (c : CarouselState) : CarouselState :=
  let index :=
    if index < 0 then c.totalPhotos - 1
    else if index ≥ c.totalPhotos then 0
    else index
  { c with currentIndex := index }

/-- The carousel together with the browser's timer-id allocator: browsers
hand out positive interval ids, modelled by a counter starting at 1. -/
structure CarouselWorld where
  carousel : CarouselState
  nextTimerId : Nat
deriving DecidableEq, Repr

/-- JS truthiness of `CarouselState.autoPlayInterval`: `null` and the id 0
are falsy (browsers never return 0 from `setInterval`). -/
def jsTruthyId : Option Nat → Bool
  | none => false
  | some n => decide (n ≠ 0)

/-- `startAutoPlay()`: mark the carousel playing and arm a fresh interval
timer (the timer's callback only navigates; it is not part of this state
change). -/
def startAutoPlay (w : CarouselWorld) : CarouselWorld :=
  { carousel :=
      { w.carousel with
        isPlaying := true
        autoPlayInterval := some w.nextTimerId }
    nextTimerId := w.nextTimerId + 1 }

/-- `pauseAutoPlay()`: mark the carousel not playing and, if an interval is
armed (truthy), clear it and null the handle. -/
def pauseAutoPlay (w : CarouselWorld) : CarouselWorld :=
  let c1 := { w.carousel with isPlaying := false }
  let c2 :=
    if jsTruthyId c1.autoPlayInterval then
      { c1 with autoPlayInterval := none }
    else c1
  { w with carousel := c2 }

/-- `toggleAutoPlay()`: pause when playing, start when not. -/
def toggleAutoPlay (w : CarouselWorld) : CarouselWorld :=
  if w.carousel.isPlaying then pauseAutoPlay w else startAutoPlay w

/-- One autoplay operation a caller can invoke on the carousel. -/
inductive AutoOp where
  | start
  | pause
  | toggle
deriving DecidableEq, Repr

/-- Apply one autoplay operation. -/
def applyAutoOp : AutoOp → CarouselWorld → CarouselWorld
  | .start, w => startAutoPlay w
  | .pause, w => pauseAutoPlay w
  | .toggle, w => toggleAutoPlay w

/-- Run a sequence of autoplay operations left to right. -/
def runAutoOps (ops : List AutoOp) (w : CarouselWorld) : CarouselWorld :=
  ops.foldl (fun w op => applyAutoOp op w) w

/-- The initial carousel state of js/hobbies-carousel.js: index 0, no
photos, not playing, no armed timer; the first `setInterval` id is 1. -/
def initialCarouselWorld : CarouselWorld :=
  { carousel :=
      { currentIndex := 0
        totalPhotos := 0
        isPlaying := false
        autoPlayInterval := none }
    nextTimerId := 1 }

/-- A carousel state with three photos, positioned at the first photo and
not playing. -/
def carousel3 : CarouselState :=
  { currentIndex := 0
    totalPhotos := 3
    isPlaying := false
    autoPlayInterval := none }

/-- The theme state of js/theme.js, projected to the fields the claims
observe: `ThemeSystem.currentTheme`, the `data-theme` attribute of
`document.documentElement` and of `document.body` (`none` = attribute
absent), and `localStorage['theme']` (`none` = key unset). -/
structure ThemeState where
  currentTheme : String
  docTheme : Option String
  bodyTheme : Option String
  storedTheme : Option String
deriving DecidableEq, Repr

/-- `setTheme(theme, save)`: coerce anything outside \x7b'light','dark'\x7d to
'light', store it as the current theme, apply it to the `data-theme`
attributes of the document element and body, and persist it to
`localStorage['theme']` when `save` is true. Switcher-UI updates and
observer notification do not touch these fields. -/
def setTheme (theme : String) (save : Bool) (s : ThemeState) : ThemeState :=
  let theme := if theme = "light" ∨ theme = "dark" then theme else "light"
  let s1 : ThemeState :=
    { s with
      currentTheme := theme
      docTheme := some theme
      bodyTheme := some theme }
  if save then { s1 with storedTheme := some theme } else s1

/-- `toggleTheme()`: switch to 'dark' when the current theme is 'light' and
to 'light' otherwise, via `setTheme` with saving enabled. -/
def toggleTheme (s : ThemeState) : ThemeState :=
  setTheme (if s.currentTheme = "light" then "dark" else "light") true s

/-- The readiness state the interactions module's poll observes at one tick:
whether `window.App` exists, the value of `window.App.isLoaded`, and whether
`window.Utils` is defined. -/
structure InteractionsWorld where
  appDefined : Bool
  isLoaded : Bool
  utilsDefined : Bool
deriving DecidableEq, Repr

/-- The guard of `initWhenReady`:
`window.App && window.App.isLoaded && window.Utils`. -/
def readyCheck (w : InteractionsWorld) : Bool :=
  w.appDefined && w.isLoaded && w.utilsDefined

/-- The `initWhenReady` poll loop over the sequence of states it observes at
its successive ticks: it calls `initializeAllInteractions()` at the first
tick whose state passes the guard (returning that tick's index) and
otherwise re-schedules itself; it never fires if no observed state passes. -/
def initWhenReady : List InteractionsWorld → Option Nat
  | [] => none
  | w :: ws => if readyCheck w then some 0 else (initWhenReady ws).map (· + 1)

/-- Whether a fetch outcome is an ok response (`response.ok` true). -/
def fetchOk : FetchOutcome → Bool
  | .ok _ => true
  | _ => false

/-- The autoplay consistency invariant together with the bookkeeping facts
that make it inductive: the playing flag tracks exactly whether a timer
handle is armed, armed handles are positive, and fresh ids stay positive. -/
def autoInv (w : CarouselWorld) : Prop :=
  (w.carousel.isPlaying = true ↔ w.carousel.autoPlayInterval ≠ none) ∧
  (∀ n, w.carousel.autoPlayInterval = some n → 0 < n) ∧
  0 < w.nextTimerId

/-- A fetch environment in which every path succeeds with a fixed body. -/
def envOk : Env := fun _ => .ok "<p>ok</p>"

/-- A fetch environment in which every fetch rejects at the network level. -/
def envFail : Env := fun _ => .networkError "Failed to fetch"

/-- A DOM in which every id resolves to an (initially empty) element. -/
def dom0 : Dom := fun _ => some ""

/-- The loader's starting state on such a DOM: no components recorded, no
fetches issued, readiness flag down. -/
def st0 : St :=
  { dom := dom0, components := fun _ => none, fetchLog := [], isLoaded := false }

/-- A theme state whose attribute and storage are out of sync with the
in-memory theme in the way a fresh visit produces: the inline script applied
'light' to the document, but nothing was ever saved to localStorage. -/
def themeFresh : ThemeState :=
  { currentTheme := "light"
    docTheme := some "light"
    bodyTheme := some "light"
    storedTheme := none }

/-- A fully synchronized dark-mode theme state. -/
def themeDarkSynced : ThemeState :=
  { currentTheme := "dark"
    docTheme := some "dark"
    bodyTheme := some "dark"
    storedTheme := some "dark" }

/-- A poll tick state in which the app object exists, the readiness flag is
up and the utils module is defined. -/
def worldReady : InteractionsWorld :=
  { appDefined := true, isLoaded := true, utilsDefined := true }

/-! ### Helper lemmas about single component loads -/

theorem setInnerHTML_at (d : Dom) (i html : String) :
    setInnerHTML d i html i = some html := by
  simp [setInnerHTML]

theorem setInnerHTML_ne (d : Dom) {i j : String} (html : String) (hj : j ≠ i) :
    setInnerHTML d i html j = d j := by
  simp [setInnerHTML, hj]

theorem loadComponent_fetchLog (env : Env) (name path cid : String) (st : St) :
    (loadComponent env name path cid st).1.fetchLog = st.fetchLog ++ [path] := by
  unfold loadComponent loadComponentTry loadFallbackComponent
  cases env path <;> cases hdom : st.dom cid <;>
    simp_all [setInnerHTML]

theorem loadComponent_dom_isSome (env : Env) (name path cid j : String) (st : St) :
    ((loadComponent env name path cid st).1.dom j).isSome = (st.dom j).isSome := by
  unfold loadComponent loadComponentTry loadFallbackComponent
  cases env path <;> cases hdom : st.dom cid <;>
    by_cases hj : j = cid <;>
    simp_all [setInnerHTML]

theorem loadComponent_dom_ne (env : Env) (name path : String) {cid j : String}
    (st : St) (hj : j ≠ cid) :
    (loadComponent env name path cid st).1.dom j = st.dom j := by
  unfold loadComponent loadComponentTry loadFallbackComponent
  cases env path <;> cases hdom : st.dom cid <;>
    simp_all [setInnerHTML, hj]

theorem loadComponent_dom_ok (env : Env) (name path cid : String) (st : St)
    {body : String} (henv : env path = .ok body)
    (hpres : (st.dom cid).isSome = true) :
    (loadComponent env name path cid st).1.dom cid = some body := by
  obtain ⟨x, hx⟩ := Option.isSome_iff_exists.mp hpres
  unfold loadComponent loadComponentTry
  simp [henv, hx, setInnerHTML]

theorem loadComponent_snd (env : Env) (name path cid : String) (st : St) :
    (loadComponent env name path cid st).2
      = (fetchOk (env path) && (st.dom cid).isSome) := by
  unfold loadComponent loadComponentTry loadFallbackComponent
  cases env path <;> cases hdom : st.dom cid <;>
    simp_all [fetchOk]

theorem loadComponent_components (env : Env) (name path cid : String) (st : St) :
    ∃ e, (loadComponent env name path cid st).1.components
      = mapSet st.components name e := by
  unfold loadComponent loadComponentTry loadFallbackComponent
  cases henv : env path <;> cases hdom : st.dom cid <;>
    simp only [hdom] <;> exact ⟨_, rfl⟩

theorem loadComponent_isLoaded (env : Env) (name path cid : String) (st : St) :
    (loadComponent env name path cid st).1.isLoaded = st.isLoaded := by
  unfold loadComponent loadComponentTry loadFallbackComponent
  cases env path <;> cases hdom : st.dom cid <;>
    simp_all

/-! ### Helper lemmas about the full component run -/

theorem mapSet_isSome (m : String → Option ComponentEntry) (n k : String)
    (e : ComponentEntry) :
    ((mapSet m n e) k).isSome = (decide (k = n) || (m k).isSome) := by
  by_cases h : k = n <;> simp [mapSet, h]

theorem runComponents_fetchLog (env : Env) (comps : List (String × String)) :
    ∀ st : St, (runComponents env comps st).1.fetchLog
      = st.fetchLog ++ comps.map Prod.snd := by
  induction comps with
  | nil => intro st; simp [runComponents]
  | cons hd tl ih =>
      intro st
      obtain ⟨name, path⟩ := hd
      simp [runComponents, loadComponentPromise, ih, loadComponent_fetchLog]

theorem runComponents_dom_isSome (env : Env) (comps : List (String × String)) :
    ∀ (st : St) (j : String),
      ((runComponents env comps st).1.dom j).isSome = (st.dom j).isSome := by
  induction comps with
  | nil => intro st j; simp [runComponents]
  | cons hd tl ih =>
      intro st j
      obtain ⟨name, path⟩ := hd
      simp [runComponents, loadComponentPromise, ih, loadComponent_dom_isSome]

theorem runComponents_dom_ne (env : Env) (comps : List (String × String)) :
    ∀ (st : St) (j : String),
      j ∉ comps.map (fun np => np.1 ++ "-container") →
      (runComponents env comps st).1.dom j = st.dom j := by
  induction comps with
  | nil => intro st j _; simp [runComponents]
  | cons hd tl ih =>
      intro st j hj
      obtain ⟨name, path⟩ := hd
      simp only [List.map_cons, List.mem_cons, not_or] at hj
      simp [runComponents, loadComponentPromise, ih _ _ hj.2,
            loadComponent_dom_ne env name path _ hj.1]

theorem runComponents_length (env : Env) (comps : List (String × String)) :
    ∀ st : St, (runComponents env comps st).2.length = comps.length := by
  induction comps with
  | nil => intro st; simp [runComponents]
  | cons hd tl ih =>
      intro st
      obtain ⟨name, path⟩ := hd
      simp [runComponents, ih]

theorem runComponents_all_fulfilled (env : Env) (comps : List (String × String)) :
    ∀ st : St, ∀ o ∈ (runComponents env comps st).2, ∃ b, o = POutcome.fulfilled b := by
  induction comps with
  | nil => intro st o ho; simp [runComponents] at ho
  | cons hd tl ih =>
      intro st o ho
      obtain ⟨name, path⟩ := hd
      simp only [runComponents, loadComponentPromise, List.mem_cons] at ho
      rcases ho with ho | ho
      · exact ⟨_, ho⟩
      · exact ih _ o ho

theorem runComponents_components_mono (env : Env) (comps : List (String × String)) :
    ∀ (st : St) (k : String), (st.components k).isSome = true →
      ((runComponents env comps st).1.components k).isSome = true := by
  induction comps with
  | nil => intro st k h; simpa [runComponents] using h
  | cons hd tl ih =>
      intro st k h
      obtain ⟨name, path⟩ := hd
      obtain ⟨e, he⟩ := loadComponent_components env name path (name ++ "-container") st
      simp only [runComponents, loadComponentPromise]
      exact ih _ k (by simp [he, mapSet_isSome, h])

theorem runComponents_settled (env : Env) (comps : List (String × String)) :
    ∀ st : St, ∀ np ∈ comps,
      ((runComponents env comps st).1.components np.1).isSome = true := by
  induction comps with
  | nil => intro st np hnp; simp at hnp
  | cons hd tl ih =>
      intro st np hnp
      obtain ⟨name, path⟩ := hd
      obtain ⟨e, he⟩ := loadComponent_components env name path (name ++ "-container") st
      simp only [runComponents, loadComponentPromise]
      rcases List.mem_cons.mp hnp with hnp | hnp
      · subst hnp
        exact runComponents_components_mono env tl _ _ (by simp [he, mapSet_isSome])
      · exact ih _ np hnp

theorem filter_fulfilled_partition (os : List POutcome)
    (h : ∀ o ∈ os, ∃ b, o = POutcome.fulfilled b) :
    (os.filter isFulfilledTrue).length + (os.filter isFulfilledFalse).length
      = os.length := by
  induction os with
  | nil => simp
  | cons o tl ih =>
      obtain ⟨b, rfl⟩ := h o (by simp)
      have htl : ∀ x ∈ tl, ∃ b, x = POutcome.fulfilled b := fun x hx => h x (by simp [hx])
      have ihh := ih htl
      cases b <;>
        simp [List.filter_cons, isFulfilledTrue, isFulfilledFalse] <;> omega

theorem runComponents_dom_ok (env : Env) (comps : List (String × String)) :
    ∀ (st : St) (name path body : String),
      (name, path) ∈ comps → env path = .ok body →
      (st.dom (name ++ "-container")).isSome = true →
      (comps.map (fun np => np.1 ++ "-container")).Nodup →
      (runComponents env comps st).1.dom (name ++ "-container") = some body := by
  induction comps with
  | nil => intro st name path body hmem _ _ _; simp at hmem
  | cons hd tl ih =>
      intro st name path body hmem henv hpres hnd
      obtain ⟨n0, p0⟩ := hd
      simp only [List.map_cons, List.nodup_cons] at hnd
      rcases List.mem_cons.mp hmem with heq | hmem2
      · injection heq with hn hp
        subst hn; subst hp
        simp only [runComponents, loadComponentPromise]
        rw [runComponents_dom_ne env tl _ _ hnd.1]
        exact loadComponent_dom_ok env name path (name ++ "-container") st henv hpres
      · simp only [runComponents, loadComponentPromise]
        refine ih _ name path body hmem2 henv ?_ hnd.2
        rw [loadComponent_dom_isSome]
        exact hpres

/-! ### Nonemptiness of the fallback markup -/

theorem fallbackContent_ne_empty {name s : String}
    (h : fallbackContent name = some s) : s ≠ "" := by
  unfold fallbackContent at h
  split at h <;>
    first
      | (injection h with h; subst h; decide)
      | exact Option.noConfusion h

theorem genericFallback_ne_empty (name : String) : genericFallback name ≠ "" := by
  intro h
  have h2 := congrArg String.data h
  simp only [genericFallback, String.data_append] at h2
  simp [List.append_eq_nil] at h2

theorem jsOrString_fallback_ne_empty (name : String) :
    jsOrString (fallbackContent name) (genericFallback name) ≠ "" := by
  cases hfc : fallbackContent name with
  | none => simpa [jsOrString] using genericFallback_ne_empty name
  | some s =>
      by_cases hs : s = "" <;>
        simp [jsOrString, hs, genericFallback_ne_empty name, fallbackContent_ne_empty hfc]

theorem loadFallbackComponent_dom (name cid : String) (st : St)
    (hpres : (st.dom cid).isSome = true) :
    (loadFallbackComponent name cid st).dom cid
      = some (jsOrString (fallbackContent name) (genericFallback name)) := by
  obtain ⟨x, hx⟩ := Option.isSome_iff_exists.mp hpres
  simp [loadFallbackComponent, hx, setInnerHTML]

theorem loadComponent_dom_fail (env : Env) (name path cid : String) (st : St)
    (hfail : fetchOk (env path) = false) (hpres : (st.dom cid).isSome = true) :
    (loadComponent env name path cid st).1.dom cid
      = some (jsOrString (fallbackContent name) (genericFallback name)) := by
  obtain ⟨x, hx⟩ := Option.isSome_iff_exists.mp hpres
  unfold loadComponent loadComponentTry loadFallbackComponent
  cases henv : env path <;> simp_all [fetchOk, setInnerHTML]

theorem initWhenReady_fires (ws : List InteractionsWorld) (i : Nat)
    (h : initWhenReady ws = some i) :
    ∃ w, ws[i]? = some w ∧ readyCheck w = true := by
  induction ws generalizing i with
  | nil => simp [initWhenReady] at h
  | cons w ws ih =>
      by_cases hw : readyCheck w
      · simp only [initWhenReady] at h
        rw [if_pos hw] at h
        obtain rfl : (0 : Nat) = i := Option.some.inj h
        exact ⟨w, by simp, hw⟩
      · simp only [initWhenReady] at h
        rw [if_neg hw] at h
        obtain ⟨j, hj, hji⟩ := Option.map_eq_some'.mp h
        obtain ⟨w2, hw2, hr⟩ := ih j hj
        refine ⟨w2, ?_, hr⟩
        subst hji
        simpa using hw2

theorem loadAllComponentsOver_fst (env : Env) (l : List (String × String)) (st : St) :
    (loadAllComponentsOver env l st).1 = (runComponents env l st).1 := rfl

theorem loadAllComponentsOver_successCount (env : Env) (l : List (String × String))
    (st : St) :
    (loadAllComponentsOver env l st).2.successCount
      = ((runComponents env l st).2.filter isFulfilledTrue).length := rfl

theorem loadAllComponentsOver_totalComponents (env : Env) (l : List (String × String))
    (st : St) :
    (loadAllComponentsOver env l st).2.totalComponents
      = (runComponents env l st).2.length := rfl

/-! ### The claims -/

/-- C1: every per-component load promise settles (fulfilled, never rejected),
the loader awaits all of them, and one component's fetch failure neither
fails the whole run nor prevents any other component whose fetch succeeds
from being injected into its container. -/
theorem c1_loader_never_rejects (env : Env) (st : St) :
    (∀ o ∈ (runComponents env COMPONENT_PATHS st).2, ∃ b, o = POutcome.fulfilled b) ∧
    (∀ name path body : String, (name, path) ∈ COMPONENT_PATHS →
      env path = .ok body →
      (st.dom (name ++ "-container")).isSome = true →
      (loadAllComponents env st).1.dom (name ++ "-container") = some body) := by
  refine ⟨runComponents_all_fulfilled env COMPONENT_PATHS st, ?_⟩
  intro name path body hmem henv hpres
  rw [loadAllComponents, loadAllComponentsOver_fst]
  exact runComponents_dom_ok env COMPONENT_PATHS st name path body hmem henv hpres (by decide)

/-- C1 witness: on a DOM with every container present and an environment
where every fetch succeeds, all outcomes are fulfilled and the header
container receives the fetched body. -/
theorem c1_loader_never_rejects_witness :
    (∀ o ∈ (runComponents envOk COMPONENT_PATHS st0).2, ∃ b, o = POutcome.fulfilled b) ∧
    (loadAllComponents envOk st0).1.dom ("header" ++ "-container") = some "<p>ok</p>" :=
  ⟨(c1_loader_never_rejects envOk st0).1,
   (c1_loader_never_rejects envOk st0).2 "header" "components/header.html" "<p>ok</p>"
     (by decide) rfl (by decide)⟩

/-- C2: when a component's fetch fails (non-ok status or network error) and
its container exists, loadComponent leaves the container's innerHTML a
non-empty fallback markup string. -/
theorem c2_failed_fetch_nonempty_fallback (env : Env) (name path : String) (st : St)
    (hfail : fetchOk (env path) = false)
    (hpres : (st.dom (name ++ "-container")).isSome = true) :
    ∃ s, (loadComponent env name path (name ++ "-container") st).1.dom (name ++ "-container")
        = some s ∧ s ≠ "" :=
  ⟨jsOrString (fallbackContent name) (genericFallback name),
   loadComponent_dom_fail env name path (name ++ "-container") st hfail hpres,
   jsOrString_fallback_ne_empty name⟩

/-- C2 witness: a network failure on the header fragment with its container
present yields non-empty fallback markup in the container. -/
theorem c2_failed_fetch_nonempty_fallback_witness :
    ∃ s, (loadComponent envFail "header" "components/header.html"
          ("header" ++ "-container") st0).1.dom ("header" ++ "-container")
        = some s ∧ s ≠ "" :=
  c2_failed_fetch_nonempty_fallback envFail "header" "components/header.html" st0
    (by decide) (by decide)

/-- C3: over the 8 configured components, if K loads resolve false then
successCount = 8 − K, totalComponents = 8, and the run always completes with
these statistics, whichever components fail. -/
theorem c3_success_count (env : Env) (st : St) :
    (loadAllComponents env st).2.totalComponents = 8 ∧
    (loadAllComponents env st).2.successCount
        + ((runComponents env COMPONENT_PATHS st).2.filter isFulfilledFalse).length = 8 ∧
    (loadAllComponents env st).2.successCount
        = 8 - ((runComponents env COMPONENT_PATHS st).2.filter isFulfilledFalse).length := by
  have hpart := filter_fulfilled_partition (runComponents env COMPONENT_PATHS st).2
      (runComponents_all_fulfilled env COMPONENT_PATHS st)
  have hlen : (runComponents env COMPONENT_PATHS st).2.length = 8 := by
    rw [runComponents_length env COMPONENT_PATHS st]; rfl
  simp only [loadAllComponents, loadAllComponentsOver_successCount,
    loadAllComponentsOver_totalComponents]
  refine ⟨hlen, ?_, ?_⟩ <;> omega

/-- C6: loadFallbackComponent gives a name absent from the hard-coded
fallback map the generic "Section Loading Error / refresh the page"
placeholder, and gives a name present in the map exactly that name's
hard-coded inline HTML string. -/
theorem c6_fallback_selection (name cid : String) (st : St)
    (hpres : (st.dom cid).isSome = true) :
    (fallbackContent name = none →
      (loadFallbackComponent name cid st).dom cid = some (genericFallback name)) ∧
    (∀ s, fallbackContent name = some s →
      (loadFallbackComponent name cid st).dom cid = some s) := by
  constructor
  · intro hnone
    rw [loadFallbackComponent_dom name cid st hpres, hnone]
    rfl
  · intro s hs
    rw [loadFallbackComponent_dom name cid st hpres, hs]
    simp [jsOrString, fallbackContent_ne_empty hs]

/-- C6 witness: the unknown name "footer" receives the generic placeholder
in its existing container. -/
theorem c6_fallback_selection_witness :
    (loadFallbackComponent "footer" "footer-container" st0).dom "footer-container"
      = some (genericFallback "footer") :=
  (c6_fallback_selection "footer" "footer-container" st0 (by decide)).1 rfl

set_option maxHeartbeats 1000000 in
/-- C7: one invocation of loadComponent issues exactly one fetch of the
fragment path whatever the outcome, and the whole page load fetches each
configured fragment path exactly once (the path list has no duplicates), so
a failed fetch is never retried. -/
theorem c7_single_fetch (env : Env) (name path cid : String) (st : St) :
    (loadComponent env name path cid st).1.fetchLog = st.fetchLog ++ [path] ∧
    (loadAllComponents env st).1.fetchLog = st.fetchLog ++ COMPONENT_PATHS.map Prod.snd ∧
    (COMPONENT_PATHS.map Prod.snd).Nodup := by
  refine ⟨loadComponent_fetchLog env name path cid st, ?_, by decide⟩
  rw [loadAllComponents, loadAllComponentsOver_fst]
  exact runComponents_fetchLog env COMPONENT_PATHS st

/-- C8: the interactions poll loop fires initializeAllInteractions only at a
tick whose observed state has the app object, the readiness flag and the
utils module all set; and the loader's DOMContentLoaded handler raises that
readiness flag only after awaiting all component outcomes, at which point
every configured component has a settled entry in the component map. -/
theorem c8_interactions_after_ready (ws : List InteractionsWorld) (i : Nat)
    (env : Env) (st : St) (hfire : initWhenReady ws = some i) :
    (∃ w, ws[i]? = some w ∧ w.appDefined = true ∧ w.isLoaded = true ∧
        w.utilsDefined = true) ∧
    (domContentLoadedHandler env st).isLoaded = true ∧
    (∀ np ∈ COMPONENT_PATHS,
        ((domContentLoadedHandler env st).components np.1).isSome = true) := by
  refine ⟨?_, ?_, ?_⟩
  · obtain ⟨w, hw, hr⟩ := initWhenReady_fires ws i hfire
    simp only [readyCheck, Bool.and_eq_true] at hr
    exact ⟨w, hw, hr.1.1, hr.1.2, hr.2⟩
  · simp only [domContentLoadedHandler]
  · intro np hnp
    simp only [domContentLoadedHandler, loadAllComponents, loadAllComponentsOver_fst]
    exact runComponents_settled env COMPONENT_PATHS st np hnp

/-- C8 witness: a single ready tick fires the poll at index 0, and a
successful load run settles every component with the readiness flag up. -/
theorem c8_interactions_after_ready_witness :
    (∃ w, ([worldReady])[0]? = some w ∧ w.appDefined = true ∧ w.isLoaded = true ∧
        w.utilsDefined = true) ∧
    (domContentLoadedHandler envOk st0).isLoaded = true ∧
    (∀ np ∈ COMPONENT_PATHS,
        ((domContentLoadedHandler envOk st0).components np.1).isSome = true) :=
  c8_interactions_after_ready [worldReady] 0 envOk st0 (by decide)

/-- C4: navigateToPhoto wraps: the argument −1 (previous button, left arrow
or right swipe from the first photo) yields the last index totalPhotos − 1,
the argument totalPhotos (next from the last photo) yields 0, and any
in-range argument is stored unchanged. -/
theorem c4_carousel_wrap (c : CarouselState) (htot : 0 ≤ c.totalPhotos) :
    (navigateToPhoto (-1) c).currentIndex = c.totalPhotos - 1 ∧
    (navigateToPhoto c.totalPhotos c).currentIndex = 0 ∧
    ∀ i : Int, 0 ≤ i → i < c.totalPhotos → (navigateToPhoto i c).currentIndex = i := by
  refine ⟨?_, ?_, ?_⟩
  · simp only [navigateToPhoto]
    split_ifs <;> omega
  · simp only [navigateToPhoto]
    split_ifs <;> omega
  · intro i h0 hlt
    simp only [navigateToPhoto]
    split_ifs <;> omega

/-- C4 witness: with three photos, previous from photo 0 lands on index 2,
next from the last wraps to 0, and the in-range index 1 is kept. -/
theorem c4_carousel_wrap_witness :
    (navigateToPhoto (-1) carousel3).currentIndex = carousel3.totalPhotos - 1 ∧
    (navigateToPhoto carousel3.totalPhotos carousel3).currentIndex = 0 ∧
    (navigateToPhoto 1 carousel3).currentIndex = 1 :=
  ⟨(c4_carousel_wrap carousel3 (by decide)).1,
   (c4_carousel_wrap carousel3 (by decide)).2.1,
   (c4_carousel_wrap carousel3 (by decide)).2.2 1 (by decide) (by decide)⟩

/-- C5 counterexample: the claim quantifies over every starting state, but
from a fresh-visit state — the inline script applied 'light' to the
document while localStorage 'theme' was never written — toggling the theme
twice does not restore the stored value: it goes from unset to 'light'. -/
theorem c5_double_toggle_counterexample :
    ¬ ((toggleTheme (toggleTheme themeFresh)).docTheme = themeFresh.docTheme ∧
       (toggleTheme (toggleTheme themeFresh)).storedTheme = themeFresh.storedTheme) := by
  decide

/-- C5 (amended): for every starting state that is internally synchronized —
the current theme is 'light' or 'dark' and both the data-theme attribute and
the stored 'theme' value equal it — toggling twice restores the attribute
and the stored value. -/
theorem c5_double_toggle_restores (s : ThemeState)
    (hcur : s.currentTheme = "light" ∨ s.currentTheme = "dark")
    (hdoc : s.docTheme = some s.currentTheme)
    (hstore : s.storedTheme = some s.currentTheme) :
    (toggleTheme (toggleTheme s)).docTheme = s.docTheme ∧
    (toggleTheme (toggleTheme s)).storedTheme = s.storedTheme := by
  rcases hcur with h | h <;>
    simp [toggleTheme, setTheme, h, hdoc, hstore]

/-- C5 witness: double toggle from the synchronized dark state restores the
attribute and the stored value. -/
theorem c5_double_toggle_restores_witness :
    (toggleTheme (toggleTheme themeDarkSynced)).docTheme = themeDarkSynced.docTheme ∧
    (toggleTheme (toggleTheme themeDarkSynced)).storedTheme = themeDarkSynced.storedTheme :=
  c5_double_toggle_restores themeDarkSynced (Or.inr rfl) rfl rfl

/-- C9: after any setTheme call the current theme is 'light' or 'dark' and
the document's data-theme attribute equals it; a valid argument is applied
unchanged and any other argument is coerced to 'light'. -/
theorem c9_setTheme_valid (t : String) (save : Bool) (s : ThemeState) :
    ((setTheme t save s).currentTheme = "light" ∨
      (setTheme t save s).currentTheme = "dark") ∧
    (setTheme t save s).docTheme = some ((setTheme t save s).currentTheme) ∧
    ((t = "light" ∨ t = "dark") → (setTheme t save s).currentTheme = t) ∧
    (¬(t = "light" ∨ t = "dark") → (setTheme t save s).currentTheme = "light") := by
  by_cases ht : t = "light" ∨ t = "dark"
  · rcases ht with h | h <;> cases save <;> simp [setTheme, h]
  · cases save <;> simp [setTheme, ht]

/-- C9 witness: the invalid argument "blue" is coerced to 'light', while the
valid argument "dark" is applied unchanged. -/
theorem c9_setTheme_valid_witness :
    (setTheme "blue" true themeFresh).currentTheme = "light" ∧
    (setTheme "dark" true themeFresh).currentTheme = "dark" :=
  ⟨(c9_setTheme_valid "blue" true themeFresh).2.2.2 (by decide),
   (c9_setTheme_valid "dark" true themeFresh).2.2.1 (Or.inr rfl)⟩

theorem startAutoPlay_inv (w : CarouselWorld) (h : autoInv w) :
    autoInv (startAutoPlay w) := by
  obtain ⟨h1, h2, h3⟩ := h
  refine ⟨by simp [startAutoPlay], ?_, by simp [startAutoPlay]⟩
  intro n hn
  simp only [startAutoPlay] at hn
  obtain rfl : w.nextTimerId = n := Option.some.inj hn
  exact h3

theorem pauseAutoPlay_inv (w : CarouselWorld) (h : autoInv w) :
    autoInv (pauseAutoPlay w) := by
  obtain ⟨h1, h2, h3⟩ := h
  have hnone : (pauseAutoPlay w).carousel.autoPlayInterval = none := by
    cases hi : w.carousel.autoPlayInterval with
    | none => simp [pauseAutoPlay, jsTruthyId, hi]
    | some n =>
        have hn := h2 n hi
        simp [pauseAutoPlay, jsTruthyId, hi, Nat.pos_iff_ne_zero.mp hn]
  refine ⟨?_, ?_, ?_⟩
  · have hplay : (pauseAutoPlay w).carousel.isPlaying = false := by
      simp only [pauseAutoPlay]
      split_ifs <;> rfl
    rw [hplay, hnone]
    simp
  · intro n hn
    rw [hnone] at hn
    exact Option.noConfusion hn
  · cases hi : w.carousel.autoPlayInterval <;> simp [pauseAutoPlay, jsTruthyId, hi, h3]

theorem applyAutoOp_inv (op : AutoOp) (w : CarouselWorld) (h : autoInv w) :
    autoInv (applyAutoOp op w) := by
  cases op with
  | start => exact startAutoPlay_inv w h
  | pause => exact pauseAutoPlay_inv w h
  | toggle =>
      simp only [applyAutoOp, toggleAutoPlay]
      split_ifs
      · exact pauseAutoPlay_inv w h
      · exact startAutoPlay_inv w h

theorem autoInv_initial : autoInv initialCarouselWorld := by
  refine ⟨by simp [initialCarouselWorld], ?_, by simp [initialCarouselWorld]⟩
  intro n hn
  simp [initialCarouselWorld] at hn

theorem runAutoOps_inv (ops : List AutoOp) :
    ∀ w : CarouselWorld, autoInv w → autoInv (runAutoOps ops w) := by
  induction ops with
  | nil => intro w h; simpa [runAutoOps] using h
  | cons op tl ih =>
      intro w h
      simp only [runAutoOps, List.foldl_cons] at ih ⊢
      exact ih _ (applyAutoOp_inv op w h)

/-- C10: in the initial carousel state and after any sequence of
startAutoPlay, pauseAutoPlay and toggleAutoPlay calls, the carousel reports
itself playing exactly when an interval timer handle is armed. -/
theorem c10_autoplay_consistent (ops : List AutoOp) :
    ((runAutoOps ops initialCarouselWorld).carousel.isPlaying = true ↔
      (runAutoOps ops initialCarouselWorld).carousel.autoPlayInterval ≠ none) :=
  (runAutoOps_inv ops initialCarouselWorld autoInv_initial).1

end Resume
